import Mathlib

/-!
# ODLA popart backend: computation lifecycle, pipeline-stage assignment, executor dispatch

A shallow embedding of `ODLA/platforms/odla_popart/odla_popart.cc`.

The C++ methods act on the process-wide singleton `_odla_computation`, on two
function-local statics, on the two console streams and on collaborators (the
popart builder, device manager and session, the request queue).  Here that
state is one record, `World`, passed explicitly:

* `World.comp` holds the members of the singleton;
* `World.global_ipu_number_set` and `World.previous_pipeline_stage_setting`
  are the two statics of `set_pipeline_stage(const std::string&)`;
* `World.cout` and `World.cerr` collect the lines written to the streams;
* `World.trace` lists, in program order, the calls made on collaborators.

`PopartConfig` (the configuration singleton) and the results of the popart
runtime calls are not defined in this source file; they are parameters.
-/

namespace OdlaPopart

/-! ## Data model -/

/-- A tensor id of popart: `popart::TensorId` is a string. -/
abbrev TensorId := String

/-- Modelled from the spec: the `ExecutionMode` enumeration is declared in a
header that is not part of the sources; the spec lists the modes Pipelined,
Parallel and Sequential and speaks of an unrecognized mode value.  The three
enumerators the code names are constructors, any other value of the
enumeration type is `unrecognized raw` with its integer `raw`. -/
inductive ExecutionMode where
  | PIPELINE
  | PARALLEL
  | SEQUENCE
  | unrecognized (raw : Int)
deriving DecidableEq, Repr

/-- What `std::cerr << mode` writes.  The stream prints the integer of the
enumerator; the integers of the three named enumerators are in the missing
header, and the only place that prints a mode is reached with an
unrecognized one. -/
def ExecutionMode.shown : ExecutionMode → String
  | .PIPELINE => "PIPELINE"
  | .PARALLEL => "PARALLEL"
  | .SEQUENCE => "SEQUENCE"
  | .unrecognized raw => toString raw

/-- The configuration singleton `PopartConfig::instance()`, a parameter: its
class is declared in `popart_config.h`, which is not part of the sources.
Each field is one of the accessors this file calls.
`get_pipeline_setting name ipu_idx pipeline_stage` stands for the C++ call
with two `int64_t&` arguments: it returns the `found` flag together with the
values the two referenced variables hold after the call. -/
structure PopartConfig where
  no_pipeline : Bool
  execution_mode : ExecutionMode
  ipu_num : Int
  batch_per_step : Int
  get_pipeline_setting : String → Int → Int → Bool × Int × Int
  load_onnx : Bool
  load_onnx_path : String
  save_model : Bool
  save_model_path : String

/-- Handle of a `popart::DeviceInfo`. -/
structure DeviceInfo where
  id : Nat
deriving DecidableEq, Repr

/-- Handle of a `popart::InferenceSession`. -/
structure InferenceSession where
  id : Nat
deriving DecidableEq, Repr

/-- The member `opts` of the computation: `opts({false, 1, 1})`. -/
structure Opts where
  use_ipu_model : Bool
  ipu_num : Int
  batches_per_step : Int
deriving DecidableEq, Repr

/-- The values of `popart::RecomputationType`. -/
inductive RecomputationType where
  | None
  | Standard
  | NormOnly
  | Pipeline
deriving DecidableEq, Repr

/-- The values of `popart::VirtualGraphMode`. -/
inductive VirtualGraphMode where
  | Off
  | Manual
  | Auto
  | ExecutionPhases
deriving DecidableEq, Repr

/-- The fields of `popart::SessionOptions` that `set_session_opts` writes.
The two option maps are association lists. -/
structure SessionOptions where
  enablePipelining : Bool
  autoRecomputation : RecomputationType
  matmulOptions : List (String × String)
  virtualGraphMode : VirtualGraphMode
  enableFloatingPointChecks : Bool
  enableStochasticRounding : Bool
  enableGroupedMatmuls : Bool
  enablePrefetchDatastreams : Bool
  enableOutlining : Bool
  partialsTypeMatMuls : String
  convolutionOptions : List (String × String)
  outlineThreshold : ℚ
  instrumentWithHardwareCycleCounter : Bool
  disableGradAccumulationTensorStreams : Bool
deriving DecidableEq, Repr

/-- The assignment `m[k] = v` on a `std::map<std::string, std::string>`. -/
def mapAssign : List (String × String) → String → String → List (String × String)
  | [], k, v => [(k, v)]
  | (k', v') :: rest, k, v =>
    if k' = k then (k, v) :: rest else (k', v') :: mapAssign rest k v

/-- A `popart::DataFlow(batchesPerStep, ids, AnchorReturnType(kind))`. -/
structure DataFlow where
  batchesPerStep : Int
  anchors : List TensorId
  anchorReturnType : String
deriving DecidableEq, Repr

/-- The members of `_odla_value`: `tensor_id`, `tensor_info`, `name`; the
tensor info is kept as its element type and shape. -/
structure odla_value where
  tensor_id : TensorId
  tensor_info : String × List Int
  name : String
deriving DecidableEq, Repr

/-- The two builder attributes this file uses, `popart::sVirtualGraphAttribute`
and `popart::sPipelineStageAttribute`. -/
inductive Attribute where
  | sVirtualGraphAttribute
  | sPipelineStageAttribute
deriving DecidableEq, Repr

/-- Modelled from the spec: the popart `Builder` is an external collaborator;
the spec gives its contract: it supports tagging a node or set of nodes with
an accelerator index and a stage index, supports setting and clearing a
currently active accelerator and stage attribute, and can serialize the built
graph.  The record keeps the two active attributes, the per-node tags, and
the serialized graph `getModelProto()` returns. -/
structure Builder where
  virtualGraphAttribute : Option Int
  pipelineStageAttribute : Option Int
  nodeVirtualGraph : TensorId → Option Int
  nodePipelineStage : TensorId → Option Int
  modelProto : String

/-- The call `builder->hasAttribute(attr)`. -/
def Builder.hasAttribute (b : Builder) : Attribute → Bool
  | .sVirtualGraphAttribute => b.virtualGraphAttribute.isSome
  | .sPipelineStageAttribute => b.pipelineStageAttribute.isSome

/-- The state change of `builder->clearAttribute(attr)`. -/
def Builder.clearAttribute (b : Builder) : Attribute → Builder
  | .sVirtualGraphAttribute => { b with virtualGraphAttribute := none }
  | .sPipelineStageAttribute => { b with pipelineStageAttribute := none }

/-- The state change of `builder->setAttribute(attr, value)`. -/
def Builder.setAttribute (b : Builder) (attr : Attribute) (value : Int) : Builder :=
  match attr with
  | .sVirtualGraphAttribute => { b with virtualGraphAttribute := some value }
  | .sPipelineStageAttribute => { b with pipelineStageAttribute := some value }

/-- The state change of `builder->virtualGraph(nodeOutputName, value)`. -/
def Builder.virtualGraph (b : Builder) (nodeOutputName : TensorId) (value : Int) : Builder :=
  { b with nodeVirtualGraph := fun t => if t = nodeOutputName then some value else b.nodeVirtualGraph t }

/-- The state change of `builder->pipelineStage(nodeOutputName, value)`. -/
def Builder.pipelineStage (b : Builder) (nodeOutputName : TensorId) (value : Int) : Builder :=
  { b with nodePipelineStage := fun t => if t = nodeOutputName then some value else b.nodePipelineStage t }

/-- The state change of `builder->virtualGraph(nodeOutputNames, value)` on a
`std::set` of tensor ids. -/
def Builder.virtualGraphSet (b : Builder) (nodeOutputNames : Finset TensorId) (value : Int) : Builder :=
  { b with nodeVirtualGraph := fun t => if t ∈ nodeOutputNames then some value else b.nodeVirtualGraph t }

/-- The state change of `builder->pipelineStage(nodeOutputNames, value)` on a
`std::set` of tensor ids. -/
def Builder.pipelineStageSet (b : Builder) (nodeOutputNames : Finset TensorId) (value : Int) : Builder :=
  { b with nodePipelineStage := fun t => if t ∈ nodeOutputNames then some value else b.nodePipelineStage t }

/-- The execution strategy objects `new Parallel()` and `new Sequence()`. -/
inductive Executor where
  | Parallel
  | Sequence
deriving DecidableEq, Repr

/-- Handle of an execution request, `odla_context`. -/
structure odla_context where
  id : Nat
deriving DecidableEq, Repr

/-- The ODLA compute mode argument of `compute`; the methods here ignore it. -/
abbrev odla_compute_mode := Nat

/-- The ODLA device argument of `compute`; the methods here ignore it. -/
abbrev odla_device := Nat

/-- The members of `_odla_computation`. -/
structure odla_computation where
  builder : Builder
  session : Option InferenceSession
  device : Option DeviceInfo
  opts : Opts
  m_session_opts : SessionOptions
  outputs_map : List (String × odla_value)
  m_ipu_number : Int
  m_pipeline_stage : Int
  m_done : Bool
  m_executor : Option Executor

/-- A call made on a collaborator, as recorded in `World.trace`. -/
inductive Call where
  | lock (mutex : String)
  | unlock (mutex : String)
  | createIpuModelDevice (deviceOpts : List (String × String))
  | acquireAvailableDevice (numIpus : Int)
  | saveModelProto (path : String)
  | createFromOnnxModel (proto : String) (dataFlow : DataFlow)
      (device : Option DeviceInfo) (sessionOpts : SessionOptions)
  | prepareDevice (session : InferenceSession)
  | setRandomSeed (session : InferenceSession) (seed : Int)
  | weightsFromHost (session : InferenceSession)
  | clearAttribute (attr : Attribute)
  | setAttribute (attr : Attribute) (value : Int)
  | virtualGraph (nodeOutputName : TensorId) (value : Int)
  | pipelineStage (nodeOutputName : TensorId) (value : Int)
  | virtualGraphSet (nodeOutputNames : Finset TensorId) (value : Int)
  | pipelineStageSet (nodeOutputNames : Finset TensorId) (value : Int)
  | put (context : odla_context)
  | wait (context : odla_context)

/-- The state the methods of this file read and write. -/
structure World where
  comp : odla_computation
  global_ipu_number_set : Bool
  previous_pipeline_stage_setting : Int
  cout : List String
  cerr : List String
  trace : List Call

/-- How a call of a `void` method that may reach `exit` ends. -/
inductive Outcome where
  | returned (w : World)
  | exited (code : Int) (w : World)

/-- The results of the popart runtime calls whose value the code stores, a
parameter: a null pointer is `none`. -/
structure PopartRuntime where
  createIpuModelDevice : List (String × String) → Option DeviceInfo
  acquireAvailableDevice : Int → Option DeviceInfo
  createFromOnnxModel : String → DataFlow → Option DeviceInfo → SessionOptions →
    Option InferenceSession

/-! ## Stream output, recorded calls, builder calls -/

/-- One line written to `std::cout`, ended by `std::endl`. -/
def World.putOut (w : World) (line : String) : World :=
  { w with cout := w.cout ++ [line] }

/-- One line written to `std::cerr`, ended by `std::endl`. -/
def World.putErr (w : World) (line : String) : World :=
  { w with cerr := w.cerr ++ [line] }

/-- Appends a collaborator call to the trace. -/
def World.record (w : World) (c : Call) : World :=
  { w with trace := w.trace ++ [c] }

/-- The call `builder->clearAttribute(attr)` made by the computation. -/
def World.clearAttribute (w : World) (attr : Attribute) : World :=
  { w with comp := { w.comp with builder := w.comp.builder.clearAttribute attr },
           trace := w.trace ++ [Call.clearAttribute attr] }

/-- The call `builder->setAttribute(attr, value)` made by the computation. -/
def World.setAttribute (w : World) (attr : Attribute) (value : Int) : World :=
  { w with comp := { w.comp with builder := w.comp.builder.setAttribute attr value },
           trace := w.trace ++ [Call.setAttribute attr value] }

/-! ## The methods of `_odla_computation` -/

namespace odla_computation

/-- The method `_odla_computation::set_opts`. -/
def set_opts (cfg : PopartConfig) (w : World) : World :=
  { w with comp := { w.comp with opts :=
      { use_ipu_model := false
        ipu_num := cfg.ipu_num
        batches_per_step := cfg.batch_per_step } } }

/-- The method `_odla_computation::set_session_opts`. -/
def set_session_opts (cfg : PopartConfig) (w : World) : World :=
  let mode := cfg.execution_mode
  let o := w.comp.m_session_opts
  let o := if ExecutionMode.PIPELINE = mode then
      { o with enablePipelining := true, autoRecomputation := RecomputationType.Pipeline }
    else o
  let o := { o with matmulOptions := mapAssign o.matmulOptions "use128BitConvUnitLoad" "true" }
  let o := { o with matmulOptions := mapAssign o.matmulOptions "enableMultiStageReduce" "false" }
  let o := { o with matmulOptions := mapAssign o.matmulOptions "enableFastReduce" "true" }
  let o := { o with virtualGraphMode := VirtualGraphMode.Manual }
  let o := { o with enableFloatingPointChecks := false }
  let o := { o with enableStochasticRounding := false }
  let o := { o with enableGroupedMatmuls := false }
  let o := { o with enablePrefetchDatastreams := true }
  let o := { o with enableOutlining := true }
  let partials_type := "half"
  let o := { o with partialsTypeMatMuls := partials_type }
  let o := { o with convolutionOptions := mapAssign o.convolutionOptions "partialsType" partials_type }
  let o := { o with outlineThreshold := 10 }
  let o := { o with instrumentWithHardwareCycleCounter := false }
  let o := { o with disableGradAccumulationTensorStreams := true }
  { w with comp := { w.comp with m_session_opts := o } }

/-- The method `_odla_computation::init`.  The result is `none` when the
session creation yields a null session, which `session->prepareDevice()`
would dereference. -/
def init (rt : PopartRuntime) (cfg : PopartConfig) (w : World) : Option World :=
  if w.comp.session.isNone then
    let w := w.record (Call.lock "m_init_mutex")
    if w.comp.session.isNone then
      let w := set_opts cfg w
      let ids := w.comp.outputs_map.map (fun output => output.2.tensor_id)
      let data_flow : DataFlow :=
        { batchesPerStep := w.comp.opts.batches_per_step, anchors := ids, anchorReturnType := "All" }
      let w :=
        if w.comp.opts.use_ipu_model then
          let w := w.putOut "Using IPU Model to run "
          let deviceOpts := [("numIPUs", toString w.comp.opts.ipu_num), ("tilesPerIPU", "1216")]
          let w := w.record (Call.createIpuModelDevice deviceOpts)
          { w with comp := { w.comp with device := rt.createIpuModelDevice deviceOpts } }
        else
          let w := w.record (Call.acquireAvailableDevice w.comp.opts.ipu_num)
          { w with comp := { w.comp with device := rt.acquireAvailableDevice w.comp.opts.ipu_num } }
      let w := set_session_opts cfg w
      let proto := w.comp.builder.modelProto
      let w := if cfg.load_onnx then
          w.putOut ("======> Load onnx file as pipeline mode to run: " ++ cfg.load_onnx_path)
        else w
      let proto := if cfg.load_onnx then cfg.load_onnx_path else proto
      let w := if cfg.save_model then
          (w.record (Call.saveModelProto cfg.save_model_path)).putOut
            ("The model saved to " ++ cfg.save_model_path)
        else w
      let w := w.record (Call.createFromOnnxModel proto data_flow w.comp.device w.comp.m_session_opts)
      match rt.createFromOnnxModel proto data_flow w.comp.device w.comp.m_session_opts with
      | none => none
      | some session =>
        let w := { w with comp := { w.comp with session := some session } }
        let w := w.record (Call.prepareDevice session)
        let w := w.record (Call.setRandomSeed session 0)
        let w := w.record (Call.weightsFromHost session)
        some (w.record (Call.unlock "m_init_mutex"))
    else
      some (w.record (Call.unlock "m_init_mutex"))
  else
    some w

/-- The method `_odla_computation::set_executor`. -/
def set_executor (cfg : PopartConfig) (w : World) : Outcome :=
  let mode := cfg.execution_mode
  if ExecutionMode.PIPELINE = mode ∨ ExecutionMode.PARALLEL = mode then
    let w := w.putOut "===============> set the executor as parallel"
    Outcome.returned { w with comp := { w.comp with m_executor := some Executor.Parallel } }
  else if ExecutionMode.SEQUENCE = mode then
    let w := w.putOut "===============> set the executor as sequence"
    Outcome.returned { w with comp := { w.comp with m_executor := some Executor.Sequence } }
  else
    let w := w.putErr ("*** FATAL *** unknown execution mode: " ++ mode.shown)
    Outcome.exited (-1) w

/-- The overload
`_odla_computation::set_pipeline_stage(const popart::TensorId&, const std::string&)`. -/
def set_pipeline_stage_id (cfg : PopartConfig) (nodeOutputName : TensorId) (name : String)
    (w : World) : Outcome :=
  if cfg.no_pipeline then
    Outcome.returned (w.putOut "PIPELINE not used for this run ")
  else
    let w := w.putOut
      ("Arranging the tenor with id: [" ++ nodeOutputName ++ "], name:[" ++ name ++ "]")
    let ipu_idx : Int := -1
    let pipeline_stage : Int := -1
    let r := cfg.get_pipeline_setting name ipu_idx pipeline_stage
    let found := r.1
    let ipu_idx := r.2.1
    let pipeline_stage := r.2.2
    if found then
      let w := { w with
        comp := { w.comp with builder := w.comp.builder.virtualGraph nodeOutputName ipu_idx },
        trace := w.trace ++ [Call.virtualGraph nodeOutputName ipu_idx] }
      let w := { w with
        comp := { w.comp with builder := w.comp.builder.pipelineStage nodeOutputName pipeline_stage },
        trace := w.trace ++ [Call.pipelineStage nodeOutputName pipeline_stage] }
      Outcome.returned w
    else
      Outcome.returned (w.putErr
        (" *** FATAL *** did not find a setting for node: " ++ nodeOutputName ++
          ", name: " ++ name ++ " when do the pipeling"))

/-- The overload
`_odla_computation::set_pipeline_stage(const std::set<popart::TensorId>&, const std::string&)`. -/
def set_pipeline_stage_ids (cfg : PopartConfig) (nodeOutputNames : Finset TensorId)
    (name : String) (w : World) : Outcome :=
  if cfg.no_pipeline then
    Outcome.returned (w.putOut "PIPELINE not used for this run ")
  else
    let w := w.putOut ("Arranging the tenor with name:[" ++ name ++ "]")
    let ipu_idx : Int := -1
    let pipeline_stage : Int := -1
    let r := cfg.get_pipeline_setting name ipu_idx pipeline_stage
    let found := r.1
    let ipu_idx := r.2.1
    let pipeline_stage := r.2.2
    if found then
      let w := { w with
        comp := { w.comp with builder := w.comp.builder.virtualGraphSet nodeOutputNames ipu_idx },
        trace := w.trace ++ [Call.virtualGraphSet nodeOutputNames ipu_idx] }
      let w := { w with
        comp := { w.comp with
          builder := w.comp.builder.pipelineStageSet nodeOutputNames pipeline_stage },
        trace := w.trace ++ [Call.pipelineStageSet nodeOutputNames pipeline_stage] }
      Outcome.returned w
    else
      Outcome.returned (w.putErr
        (" *** FATAL *** did not find a setting for name: " ++ name ++ " when do the pipeling"))

/-- The overload `_odla_computation::set_pipeline_stage(const std::string&)`.
It has no path to `exit`, so the result is the state at its return. -/
def set_pipeline_stage (cfg : PopartConfig) (name : String) (w : World) : World :=
  if cfg.no_pipeline then
    let w := w.putOut "PIPELINE not used for this run "
    if !w.global_ipu_number_set then
      let w := w.putOut "Set the global virtual group to ipu 0"
      w.setAttribute Attribute.sVirtualGraphAttribute 0
    else
      w
  else
    let r := cfg.get_pipeline_setting name w.comp.m_ipu_number w.comp.m_pipeline_stage
    let found := r.1
    let w := { w with comp := { w.comp with m_ipu_number := r.2.1, m_pipeline_stage := r.2.2 } }
    let w := if found then
        w.putOut ("Found the pipeline setting change point with name: " ++ name ++
          ", for which and following with setting __ipu_number: " ++ toString w.comp.m_ipu_number ++
          ", __pipeline_stage: " ++ toString w.comp.m_pipeline_stage)
      else w
    if w.previous_pipeline_stage_setting ≠ w.comp.m_pipeline_stage then
      let w := w.putOut ("pipeling setting will be: __ipu_number: " ++ toString w.comp.m_ipu_number ++
        ", __pipeline_stage: " ++ toString w.comp.m_pipeline_stage ++
        ", from the node with name: " ++ name)
      let w := if w.comp.builder.hasAttribute Attribute.sVirtualGraphAttribute then
          w.clearAttribute Attribute.sVirtualGraphAttribute
        else w
      let w := if w.comp.builder.hasAttribute Attribute.sPipelineStageAttribute then
          w.clearAttribute Attribute.sPipelineStageAttribute
        else w
      let w := w.setAttribute Attribute.sVirtualGraphAttribute w.comp.m_ipu_number
      let w := w.setAttribute Attribute.sPipelineStageAttribute w.comp.m_pipeline_stage
      { w with previous_pipeline_stage_setting := w.comp.m_pipeline_stage }
    else
      w

end odla_computation

/-! ## The `Parallel` execution strategy -/

/-- The call `context->wait()`: it blocks the caller until the completion
signal of the request fires.  `signalled context` tells whether the worker of
the request queue ever fires it; when it never does the call does not return,
which is `none`. -/
def odla_context.wait (signalled : odla_context → Bool) (context : odla_context)
    (w : World) : Option World :=
  if signalled context then some (w.record (Call.wait context)) else none

/-- The method `Parallel::compute`; `comp` is the computation held by the
state, on which the method calls nothing. -/
def Parallel.compute (signalled : odla_context → Bool) (context : odla_context)
    (_mode : odla_compute_mode) (_device : odla_device) (w : World) : Option World :=
  let w := w.putOut "---> Parallel::compute()"
  let w := w.record (Call.put context)
  match context.wait signalled w with
  | none => none
  | some w => some (w.putOut "<--- Parallel::compute()")

/-! ## Call sequences and observations -/

/-- Successive calls `init()`, `n` of them. -/
def initTimes (rt : PopartRuntime) (cfg : PopartConfig) : Nat → World → Option World
  | 0, w => some w
  | n + 1, w =>
    match odla_computation.init rt cfg w with
    | none => none
    | some w1 => initTimes rt cfg n w1

/-- Successive calls `set_pipeline_stage(name)`, one for each name of the list
in order. -/
def stageCalls (cfg : PopartConfig) : List String → World → World
  | [], w => w
  | name :: rest, w => stageCalls cfg rest (odla_computation.set_pipeline_stage cfg name w)

/-- Whether a recorded call acquires a device. -/
def Call.isDeviceAcquisition : Call → Bool
  | .createIpuModelDevice _ => true
  | .acquireAvailableDevice _ => true
  | _ => false

/-- Whether a recorded call constructs a session. -/
def Call.isSessionConstruction : Call → Bool
  | .createFromOnnxModel _ _ _ _ => true
  | _ => false

/-- Whether a recorded call creates a simulated device. -/
def Call.isIpuModelCreation : Call → Bool
  | .createIpuModelDevice _ => true
  | _ => false

/-- Whether a recorded call is `setAttribute(sVirtualGraphAttribute, 0)`. -/
def Call.isSetVirtualGraphZero : Call → Bool
  | .setAttribute .sVirtualGraphAttribute value => decide (value = 0)
  | _ => false

open odla_computation

/-- The calls on the builder made when the tracked stage differs from the
remembered one: a clear for each attribute that is active, then the two sets. -/
def reapplyCalls (b : Builder) (ipu stage : Int) : List Call :=
  (if b.hasAttribute Attribute.sVirtualGraphAttribute then
      [Call.clearAttribute Attribute.sVirtualGraphAttribute] else []) ++
  (if b.hasAttribute Attribute.sPipelineStageAttribute then
      [Call.clearAttribute Attribute.sPipelineStageAttribute] else []) ++
  [Call.setAttribute Attribute.sVirtualGraphAttribute ipu,
   Call.setAttribute Attribute.sPipelineStageAttribute stage]

/-- The calls `init` makes in an uninitialised state in which the session
creation yields `session`. -/
def initCalls (rt : PopartRuntime) (cfg : PopartConfig) (w : World)
    (session : InferenceSession) : List Call :=
  [Call.lock "m_init_mutex", Call.acquireAvailableDevice cfg.ipu_num] ++
  (if cfg.save_model then [Call.saveModelProto cfg.save_model_path] else []) ++
  [Call.createFromOnnxModel
      (if cfg.load_onnx then cfg.load_onnx_path else w.comp.builder.modelProto)
      { batchesPerStep := cfg.batch_per_step
        anchors := w.comp.outputs_map.map (fun output => output.2.tensor_id)
        anchorReturnType := "All" }
      (rt.acquireAvailableDevice cfg.ipu_num)
      (set_session_opts cfg w).comp.m_session_opts,
   Call.prepareDevice session,
   Call.setRandomSeed session 0,
   Call.weightsFromHost session,
   Call.unlock "m_init_mutex"]

/-- Modelled from the spec: the lookup `get_pipeline_setting` is declared in a
header that is not part of the sources; the spec gives it as
`getPlacement(name) -> (found, acceleratorIndex, stageIndex)`, a placement
resolved by name, with not-found a distinct outcome under which the previously
active placement carries forward.  For a name: either it is found with one
pair whatever the referenced variables hold, or it is not found and the
referenced variables keep their values. -/
def PopartConfig.resolvesByName (cfg : PopartConfig) (name : String) : Prop :=
  (∃ a s, ∀ i p, cfg.get_pipeline_setting name i p = (true, a, s)) ∨
  (∀ i p, cfg.get_pipeline_setting name i p = (false, i, p))

/-! ## Concrete configurations and states -/

/-- The values a default-constructed `popart::SessionOptions` is given here
for the fields `set_session_opts` writes. -/
def defaultSessionOptions : SessionOptions :=
  { enablePipelining := false
    autoRecomputation := RecomputationType.None
    matmulOptions := []
    virtualGraphMode := VirtualGraphMode.Off
    enableFloatingPointChecks := false
    enableStochasticRounding := false
    enableGroupedMatmuls := false
    enablePrefetchDatastreams := false
    enableOutlining := true
    partialsTypeMatMuls := "float"
    convolutionOptions := []
    outlineThreshold := 1
    instrumentWithHardwareCycleCounter := false
    disableGradAccumulationTensorStreams := false }

/-- The builder `popart::Builder::create()` returns: no attribute, no tag. -/
def emptyBuilder : Builder :=
  { virtualGraphAttribute := none
    pipelineStageAttribute := none
    nodeVirtualGraph := fun _ => none
    nodePipelineStage := fun _ => none
    modelProto := "" }

/-- The state at process start: the singleton as its constructor leaves it
(`session(nullptr), device(nullptr), opts({false, 1, 1}), m_done(false),
m_executor(nullptr)`), the two statics at their initial values, nothing
written and no call made.  The constructor does not initialise `m_ipu_number`
and `m_pipeline_stage`; they are arguments. -/
def startWorld (m_ipu_number m_pipeline_stage : Int) : World :=
  { comp :=
      { builder := emptyBuilder
        session := none
        device := none
        opts := { use_ipu_model := false, ipu_num := 1, batches_per_step := 1 }
        m_session_opts := defaultSessionOptions
        outputs_map := []
        m_ipu_number := m_ipu_number
        m_pipeline_stage := m_pipeline_stage
        m_done := false
        m_executor := none }
    global_ipu_number_set := false
    previous_pipeline_stage_setting := -1
    cout := []
    cerr := []
    trace := [] }

/-- A placement table: `a` is on accelerator 0 in stage 0, `b` on accelerator
1 in stage 1, `c` on accelerator 1 in stage 0; a name without an entry is not
found and leaves the two referenced variables as they are. -/
def tableLookup (name : String) (ipu_idx pipeline_stage : Int) : Bool × Int × Int :=
  if name = "a" then (true, 0, 0)
  else if name = "b" then (true, 1, 1)
  else if name = "c" then (true, 1, 0)
  else (false, ipu_idx, pipeline_stage)

/-- A configuration with pipelining enabled and the table `tableLookup`. -/
def pipelinedConfig : PopartConfig :=
  { no_pipeline := false
    execution_mode := ExecutionMode.PIPELINE
    ipu_num := 2
    batch_per_step := 1
    get_pipeline_setting := tableLookup
    load_onnx := false
    load_onnx_path := ""
    save_model := false
    save_model_path := "" }

/-- A configuration with pipelining disabled and the table `tableLookup`. -/
def noPipelineConfig : PopartConfig :=
  { pipelinedConfig with no_pipeline := true, execution_mode := ExecutionMode.SEQUENCE }

/-- A popart runtime in which every device request and the session creation
succeed. -/
def workingRuntime : PopartRuntime :=
  { createIpuModelDevice := fun _ => some { id := 100 }
    acquireAvailableDevice := fun _ => some { id := 1 }
    createFromOnnxModel := fun _ _ _ _ => some { id := 7 } }

/-- The state `init` leaves when called at process start on the table
configuration, with the runtime in which every request succeeds. -/
def readyWorld : World :=
  (init workingRuntime pipelinedConfig (startWorld 0 0)).getD (startWorld 0 0)

/-- The state at process start, but with the option `use_ipu_model` true. -/
def simulatedWorld : World :=
  { startWorld 0 0 with
    comp := { (startWorld 0 0).comp with
      opts := { use_ipu_model := true, ipu_num := 1, batches_per_step := 1 } } }

/-! ## Lemmas on `set_pipeline_stage(name)` with pipelining enabled -/

theorem stage_changed (cfg : PopartConfig) (name : String) (w : World) (f : Bool) (a s : Int)
    (hp : cfg.no_pipeline = false)
    (hl : cfg.get_pipeline_setting name w.comp.m_ipu_number w.comp.m_pipeline_stage = (f, a, s))
    (hd : w.previous_pipeline_stage_setting ≠ s) :
    (set_pipeline_stage cfg name w).comp.builder.virtualGraphAttribute = some a ∧
    (set_pipeline_stage cfg name w).comp.builder.pipelineStageAttribute = some s ∧
    (set_pipeline_stage cfg name w).comp.m_ipu_number = a ∧
    (set_pipeline_stage cfg name w).comp.m_pipeline_stage = s ∧
    (set_pipeline_stage cfg name w).previous_pipeline_stage_setting = s ∧
    (set_pipeline_stage cfg name w).trace = w.trace ++ reapplyCalls w.comp.builder a s := by
  cases f <;>
  cases hv : w.comp.builder.virtualGraphAttribute <;>
  cases hs : w.comp.builder.pipelineStageAttribute <;>
  simp [set_pipeline_stage, hp, hl, hd, World.putOut, World.setAttribute, World.clearAttribute,
    Builder.hasAttribute, Builder.setAttribute, Builder.clearAttribute, reapplyCalls, hv, hs]

theorem stage_kept (cfg : PopartConfig) (name : String) (w : World) (f : Bool) (a s : Int)
    (hp : cfg.no_pipeline = false)
    (hl : cfg.get_pipeline_setting name w.comp.m_ipu_number w.comp.m_pipeline_stage = (f, a, s))
    (hd : w.previous_pipeline_stage_setting = s) :
    (set_pipeline_stage cfg name w).comp.builder = w.comp.builder ∧
    (set_pipeline_stage cfg name w).comp.m_ipu_number = a ∧
    (set_pipeline_stage cfg name w).comp.m_pipeline_stage = s ∧
    (set_pipeline_stage cfg name w).previous_pipeline_stage_setting = s ∧
    (set_pipeline_stage cfg name w).trace = w.trace := by
  cases f <;> simp [set_pipeline_stage, hp, hl, hd, World.putOut]

theorem stageCalls_snoc (cfg : PopartConfig) (names : List String) (name : String) (w : World) :
    stageCalls cfg (names ++ [name]) w = set_pipeline_stage cfg name (stageCalls cfg names w) := by
  induction names generalizing w with
  | nil => rfl
  | cons n rest ih => simpa [stageCalls] using ih (set_pipeline_stage cfg n w)

/-- One call with pipelining enabled, from a state in which a remembered stage
other than the sentinel is the active stage attribute: afterwards the
remembered stage is the tracked stage, and a tracked stage other than the
sentinel is the active stage attribute. -/
theorem stage_call_tracks (cfg : PopartConfig) (name : String) (w : World)
    (hp : cfg.no_pipeline = false)
    (hinv : w.previous_pipeline_stage_setting ≠ -1 →
      w.comp.builder.pipelineStageAttribute = some w.previous_pipeline_stage_setting) :
    (set_pipeline_stage cfg name w).previous_pipeline_stage_setting =
      (set_pipeline_stage cfg name w).comp.m_pipeline_stage ∧
    ((set_pipeline_stage cfg name w).comp.m_pipeline_stage ≠ -1 →
      (set_pipeline_stage cfg name w).comp.builder.pipelineStageAttribute =
        some (set_pipeline_stage cfg name w).comp.m_pipeline_stage) := by
  obtain ⟨f, a, s, hl⟩ : ∃ f a s,
      cfg.get_pipeline_setting name w.comp.m_ipu_number w.comp.m_pipeline_stage = (f, a, s) :=
    ⟨_, _, _, rfl⟩
  by_cases hd : w.previous_pipeline_stage_setting = s
  · obtain ⟨hb, -, hm, hprev, -⟩ := stage_kept cfg name w f a s hp hl hd
    rw [hb, hm, hprev]
    refine ⟨rfl, fun hne => ?_⟩
    rw [← hd]
    exact hinv (hd ▸ hne)
  · obtain ⟨-, hps, -, hm, hprev, -⟩ := stage_changed cfg name w f a s hp hl hd
    rw [hps, hm, hprev]
    exact ⟨rfl, fun _ => rfl⟩

theorem stageCalls_remembered (cfg : PopartConfig) (names : List String) (w : World)
    (hp : cfg.no_pipeline = false)
    (hinv : w.previous_pipeline_stage_setting ≠ -1 →
      w.comp.builder.pipelineStageAttribute = some w.previous_pipeline_stage_setting) :
    (stageCalls cfg names w).previous_pipeline_stage_setting ≠ -1 →
      (stageCalls cfg names w).comp.builder.pipelineStageAttribute =
        some (stageCalls cfg names w).previous_pipeline_stage_setting := by
  induction names generalizing w with
  | nil => exact hinv
  | cons n rest ih =>
    apply ih (set_pipeline_stage cfg n w)
    obtain ⟨h1, h2⟩ := stage_call_tracks cfg n w hp hinv
    rw [h1]
    exact h2

/-- A second call with the same name, with pipelining enabled, changes neither
the builder nor the trace. -/
theorem stage_call_repeat (cfg : PopartConfig) (name : String) (w : World)
    (hp : cfg.no_pipeline = false) (hr : cfg.resolvesByName name) :
    (set_pipeline_stage cfg name (set_pipeline_stage cfg name w)).comp.builder =
      (set_pipeline_stage cfg name w).comp.builder ∧
    (set_pipeline_stage cfg name (set_pipeline_stage cfg name w)).trace =
      (set_pipeline_stage cfg name w).trace := by
  have key : ∀ w1 : World, w1.previous_pipeline_stage_setting = w1.comp.m_pipeline_stage →
      (∃ f a, cfg.get_pipeline_setting name w1.comp.m_ipu_number w1.comp.m_pipeline_stage =
        (f, a, w1.comp.m_pipeline_stage)) →
      (set_pipeline_stage cfg name w1).comp.builder = w1.comp.builder ∧
      (set_pipeline_stage cfg name w1).trace = w1.trace := by
    intro w1 h1 ⟨f, a, hl⟩
    obtain ⟨hb, -, -, -, ht⟩ := stage_kept cfg name w1 f a _ hp hl h1
    exact ⟨hb, ht⟩
  obtain ⟨f, a, s, hl⟩ : ∃ f a s,
      cfg.get_pipeline_setting name w.comp.m_ipu_number w.comp.m_pipeline_stage = (f, a, s) :=
    ⟨_, _, _, rfl⟩
  have hfirst : (set_pipeline_stage cfg name w).previous_pipeline_stage_setting =
        (set_pipeline_stage cfg name w).comp.m_pipeline_stage ∧
      (set_pipeline_stage cfg name w).comp.m_pipeline_stage = s := by
    by_cases hd : w.previous_pipeline_stage_setting = s
    · obtain ⟨-, -, hm, hprev, -⟩ := stage_kept cfg name w f a s hp hl hd
      exact ⟨by rw [hm, hprev], hm⟩
    · obtain ⟨-, -, -, hm, hprev, -⟩ := stage_changed cfg name w f a s hp hl hd
      exact ⟨by rw [hm, hprev], hm⟩
  apply key _ hfirst.1
  rcases hr with ⟨a', s', hfound⟩ | hnot
  · have hs : s = s' := by
      have := hfound w.comp.m_ipu_number w.comp.m_pipeline_stage
      rw [hl] at this
      exact (Prod.mk.inj (Prod.mk.inj this).2).2
    exact ⟨true, a', by rw [hfound, hfirst.2, hs]⟩
  · exact ⟨false, _, hnot _ _⟩

/-! ## Claims on the pipeline-stage assignment -/

/-- C2: with pipelining enabled and a fresh assigner state (the remembered
stage is the initial -1), for the calls `set_pipeline_stage("a")`,
`set_pipeline_stage(n2)`, `set_pipeline_stage("b")`, where the config finds
"a" with (0,0) and "b" with (1,1) and does not find `n2`, leaving the tracked
placement untouched: after the second call the active (accelerator, stage)
attributes of the builder are (0,0); the second call makes no call on the
builder and leaves it unchanged; after the third call the active attributes
are (1,1), and the third call makes exactly four builder calls: one clear and
one set of each of the two attributes. -/
theorem placement_inherited_then_changed (cfg : PopartConfig) (n2 : String) (w : World)
    (hp : cfg.no_pipeline = false)
    (hfresh : w.previous_pipeline_stage_setting = -1)
    (ha : ∀ i p, cfg.get_pipeline_setting "a" i p = (true, 0, 0))
    (hb : ∀ i p, cfg.get_pipeline_setting "b" i p = (true, 1, 1))
    (hn2 : ∀ i p, cfg.get_pipeline_setting n2 i p = (false, i, p)) :
    (stageCalls cfg ["a", n2] w).comp.builder.virtualGraphAttribute = some 0 ∧
    (stageCalls cfg ["a", n2] w).comp.builder.pipelineStageAttribute = some 0 ∧
    (stageCalls cfg ["a", n2] w).comp.builder = (stageCalls cfg ["a"] w).comp.builder ∧
    (stageCalls cfg ["a", n2] w).trace = (stageCalls cfg ["a"] w).trace ∧
    (stageCalls cfg ["a", n2, "b"] w).comp.builder.virtualGraphAttribute = some 1 ∧
    (stageCalls cfg ["a", n2, "b"] w).comp.builder.pipelineStageAttribute = some 1 ∧
    (stageCalls cfg ["a", n2, "b"] w).trace = (stageCalls cfg ["a", n2] w).trace ++
      [Call.clearAttribute Attribute.sVirtualGraphAttribute,
       Call.clearAttribute Attribute.sPipelineStageAttribute,
       Call.setAttribute Attribute.sVirtualGraphAttribute 1,
       Call.setAttribute Attribute.sPipelineStageAttribute 1] := by
  have e1 : stageCalls cfg ["a"] w = set_pipeline_stage cfg "a" w := rfl
  have e2 : stageCalls cfg ["a", n2] w =
      set_pipeline_stage cfg n2 (set_pipeline_stage cfg "a" w) := rfl
  have e3 : stageCalls cfg ["a", n2, "b"] w =
      set_pipeline_stage cfg "b" (set_pipeline_stage cfg n2 (set_pipeline_stage cfg "a" w)) := rfl
  rw [e1, e2, e3]
  obtain ⟨v1, s1, i1, m1, p1, -⟩ :=
    stage_changed cfg "a" w true 0 0 hp (ha _ _) (by rw [hfresh]; decide)
  have hl2 := hn2 (set_pipeline_stage cfg "a" w).comp.m_ipu_number
    (set_pipeline_stage cfg "a" w).comp.m_pipeline_stage
  obtain ⟨b2, -, m2, p2, t2⟩ :=
    stage_kept cfg n2 (set_pipeline_stage cfg "a" w) false _ _ hp hl2 (by rw [p1, m1])
  rw [m1] at p2
  obtain ⟨v3, s3, -, -, -, t3⟩ :=
    stage_changed cfg "b" (set_pipeline_stage cfg n2 (set_pipeline_stage cfg "a" w)) true 1 1 hp
      (hb _ _) (by rw [p2]; decide)
  refine ⟨by rw [b2]; exact v1, by rw [b2]; exact s1, b2, t2, v3, s3, ?_⟩
  rw [t3, b2]
  simp [reapplyCalls, Builder.hasAttribute, v1, s1]

/-- Witness of C2 on the table configuration, from the state at process start,
with the name "n2", which has no entry. -/
theorem placement_inherited_then_changed_witness :
    (stageCalls pipelinedConfig ["a", "n2"] (startWorld 0 0)).comp.builder.virtualGraphAttribute
      = some 0 ∧
    (stageCalls pipelinedConfig ["a", "n2"] (startWorld 0 0)).comp.builder.pipelineStageAttribute
      = some 0 ∧
    (stageCalls pipelinedConfig ["a", "n2"] (startWorld 0 0)).comp.builder =
      (stageCalls pipelinedConfig ["a"] (startWorld 0 0)).comp.builder ∧
    (stageCalls pipelinedConfig ["a", "n2"] (startWorld 0 0)).trace =
      (stageCalls pipelinedConfig ["a"] (startWorld 0 0)).trace ∧
    (stageCalls pipelinedConfig ["a", "n2", "b"] (startWorld 0 0)).comp.builder.virtualGraphAttribute
      = some 1 ∧
    (stageCalls pipelinedConfig ["a", "n2", "b"] (startWorld 0 0)).comp.builder.pipelineStageAttribute
      = some 1 ∧
    (stageCalls pipelinedConfig ["a", "n2", "b"] (startWorld 0 0)).trace =
      (stageCalls pipelinedConfig ["a", "n2"] (startWorld 0 0)).trace ++
      [Call.clearAttribute Attribute.sVirtualGraphAttribute,
       Call.clearAttribute Attribute.sPipelineStageAttribute,
       Call.setAttribute Attribute.sVirtualGraphAttribute 1,
       Call.setAttribute Attribute.sPipelineStageAttribute 1] :=
  placement_inherited_then_changed pipelinedConfig "n2" (startWorld 0 0) rfl rfl
    (fun _ _ => rfl) (fun _ _ => rfl) (fun _ _ => rfl)

/-- C3, the claim as stated fails: on the table configuration, after the call
for "a" has applied the pair (0,0), the name "c" is found with (1,0), which
differs from (0,0) in the accelerator index; the call for "c" makes no call on
the builder, and the active accelerator attribute is still 0, not 1. -/
theorem accelerator_only_change_not_applied :
    pipelinedConfig.no_pipeline = false ∧
    (stageCalls pipelinedConfig ["a"] (startWorld 0 0)).comp.builder.virtualGraphAttribute
      = some 0 ∧
    (stageCalls pipelinedConfig ["a"] (startWorld 0 0)).comp.builder.pipelineStageAttribute
      = some 0 ∧
    pipelinedConfig.get_pipeline_setting "c"
      (stageCalls pipelinedConfig ["a"] (startWorld 0 0)).comp.m_ipu_number
      (stageCalls pipelinedConfig ["a"] (startWorld 0 0)).comp.m_pipeline_stage = (true, 1, 0) ∧
    ((1 : Int), (0 : Int)) ≠ (0, 0) ∧
    (set_pipeline_stage pipelinedConfig "c"
      (stageCalls pipelinedConfig ["a"] (startWorld 0 0))).trace =
      (stageCalls pipelinedConfig ["a"] (startWorld 0 0)).trace ∧
    (set_pipeline_stage pipelinedConfig "c"
      (stageCalls pipelinedConfig ["a"] (startWorld 0 0))).comp.builder.virtualGraphAttribute
      = some 0 ∧
    (set_pipeline_stage pipelinedConfig "c"
      (stageCalls pipelinedConfig ["a"] (startWorld 0 0))).comp.builder.virtualGraphAttribute
      ≠ some 1 := by
  refine ⟨rfl, rfl, rfl, rfl, by decide, rfl, rfl, ?_⟩
  have h : (set_pipeline_stage pipelinedConfig "c"
      (stageCalls pipelinedConfig ["a"] (startWorld 0 0))).comp.builder.virtualGraphAttribute
      = some 0 := rfl
  rw [h]
  decide

/-- C3 as amended: with pipelining enabled, in every state (so after every
history of earlier calls) and for every name whose lookup is found with pair
(a, s): if the stage s differs from the remembered stage (the stage last
applied, -1 before any), the call makes on the builder a clear for each
placement attribute that is active followed by the two sets, and when it
returns the active accelerator attribute is a and the active stage attribute
is s. -/
theorem stage_change_reapplies (cfg : PopartConfig) (name : String) (w : World) (a s : Int)
    (hp : cfg.no_pipeline = false)
    (hfound : cfg.get_pipeline_setting name w.comp.m_ipu_number w.comp.m_pipeline_stage
      = (true, a, s))
    (hdiff : s ≠ w.previous_pipeline_stage_setting) :
    (set_pipeline_stage cfg name w).comp.builder.virtualGraphAttribute = some a ∧
    (set_pipeline_stage cfg name w).comp.builder.pipelineStageAttribute = some s ∧
    (set_pipeline_stage cfg name w).trace = w.trace ++
      ((if w.comp.builder.hasAttribute Attribute.sVirtualGraphAttribute then
          [Call.clearAttribute Attribute.sVirtualGraphAttribute] else []) ++
       (if w.comp.builder.hasAttribute Attribute.sPipelineStageAttribute then
          [Call.clearAttribute Attribute.sPipelineStageAttribute] else []) ++
       [Call.setAttribute Attribute.sVirtualGraphAttribute a,
        Call.setAttribute Attribute.sPipelineStageAttribute s]) := by
  obtain ⟨hv, hs, -, -, -, ht⟩ := stage_changed cfg name w true a s hp hfound (Ne.symm hdiff)
  exact ⟨hv, hs, ht⟩

/-- Witness of the amended C3: after the call for "a", the call for "b",
found with (1,1), whose stage 1 differs from the remembered stage 0. -/
theorem stage_change_reapplies_witness :
    (set_pipeline_stage pipelinedConfig "b"
      (stageCalls pipelinedConfig ["a"] (startWorld 0 0))).comp.builder.virtualGraphAttribute
      = some 1 ∧
    (set_pipeline_stage pipelinedConfig "b"
      (stageCalls pipelinedConfig ["a"] (startWorld 0 0))).comp.builder.pipelineStageAttribute
      = some 1 ∧
    (set_pipeline_stage pipelinedConfig "b"
      (stageCalls pipelinedConfig ["a"] (startWorld 0 0))).trace =
      (stageCalls pipelinedConfig ["a"] (startWorld 0 0)).trace ++
      ((if (stageCalls pipelinedConfig ["a"] (startWorld 0 0)).comp.builder.hasAttribute
            Attribute.sVirtualGraphAttribute then
          [Call.clearAttribute Attribute.sVirtualGraphAttribute] else []) ++
       (if (stageCalls pipelinedConfig ["a"] (startWorld 0 0)).comp.builder.hasAttribute
            Attribute.sPipelineStageAttribute then
          [Call.clearAttribute Attribute.sPipelineStageAttribute] else []) ++
       [Call.setAttribute Attribute.sVirtualGraphAttribute 1,
        Call.setAttribute Attribute.sPipelineStageAttribute 1]) :=
  stage_change_reapplies pipelinedConfig "b" (stageCalls pipelinedConfig ["a"] (startWorld 0 0))
    1 1 rfl rfl (by decide)

/-- C4, the code at a failing input: with pipelining disabled, two calls from
the state at process start set the accelerator attribute to 0 twice, once in
each call, and the static `global_ipu_number_set` is still false afterwards. -/
theorem no_pipeline_sets_on_every_call :
    noPipelineConfig.no_pipeline = true ∧
    (stageCalls noPipelineConfig ["n1"] (startWorld 0 0)).trace =
      [Call.setAttribute Attribute.sVirtualGraphAttribute 0] ∧
    (stageCalls noPipelineConfig ["n1", "n2"] (startWorld 0 0)).trace =
      [Call.setAttribute Attribute.sVirtualGraphAttribute 0,
       Call.setAttribute Attribute.sVirtualGraphAttribute 0] ∧
    ((stageCalls noPipelineConfig ["n1", "n2"] (startWorld 0 0)).trace.countP
      Call.isSetVirtualGraphZero) = 2 ∧
    (stageCalls noPipelineConfig ["n1", "n2"] (startWorld 0 0)).global_ipu_number_set = false :=
  ⟨rfl, rfl, rfl, rfl, rfl⟩

/-- C10: with pipelining enabled, from a state in which the remembered stage
is the initial -1 and with `set_pipeline_stage(name)` the only operation
applied, after every call of every call sequence the remembered stage equals
the tracked stage `m_pipeline_stage`, and when that value is not -1 the active
stage attribute of the builder equals it; and when the lookup resolves the
name as the config contract says, a second call in a row with the same name
leaves the builder as the first left it and makes no call on it. -/
theorem remembered_stage_tracks_builder (cfg : PopartConfig) (names : List String)
    (name : String) (w : World)
    (hp : cfg.no_pipeline = false)
    (hfresh : w.previous_pipeline_stage_setting = -1) :
    (stageCalls cfg (names ++ [name]) w).previous_pipeline_stage_setting =
      (stageCalls cfg (names ++ [name]) w).comp.m_pipeline_stage ∧
    ((stageCalls cfg (names ++ [name]) w).comp.m_pipeline_stage ≠ -1 →
      (stageCalls cfg (names ++ [name]) w).comp.builder.pipelineStageAttribute =
        some (stageCalls cfg (names ++ [name]) w).comp.m_pipeline_stage) ∧
    (cfg.resolvesByName name →
      (stageCalls cfg (names ++ [name] ++ [name]) w).comp.builder =
        (stageCalls cfg (names ++ [name]) w).comp.builder ∧
      (stageCalls cfg (names ++ [name] ++ [name]) w).trace =
        (stageCalls cfg (names ++ [name]) w).trace) := by
  have hinv := stageCalls_remembered cfg names w hp (fun h => absurd hfresh h)
  obtain ⟨h1, h2⟩ := stage_call_tracks cfg name (stageCalls cfg names w) hp hinv
  rw [stageCalls_snoc cfg (names ++ [name]) name w, stageCalls_snoc cfg names name w]
  exact ⟨h1, h2, fun hr => stage_call_repeat cfg name (stageCalls cfg names w) hp hr⟩

/-- Witness of C10 on the table configuration: the calls for "a" and then "b"
from the state at process start; the tracked stage is then 1. -/
theorem remembered_stage_tracks_builder_witness :
    pipelinedConfig.resolvesByName "b" ∧
    (stageCalls pipelinedConfig (["a"] ++ ["b"]) (startWorld 0 0)).comp.m_pipeline_stage = 1 ∧
    (stageCalls pipelinedConfig (["a"] ++ ["b"]) (startWorld 0 0)).previous_pipeline_stage_setting
      = (stageCalls pipelinedConfig (["a"] ++ ["b"]) (startWorld 0 0)).comp.m_pipeline_stage ∧
    (stageCalls pipelinedConfig (["a"] ++ ["b"]) (startWorld 0 0)).comp.builder.pipelineStageAttribute
      = some (stageCalls pipelinedConfig (["a"] ++ ["b"]) (startWorld 0 0)).comp.m_pipeline_stage ∧
    (stageCalls pipelinedConfig (["a"] ++ ["b"] ++ ["b"]) (startWorld 0 0)).comp.builder =
      (stageCalls pipelinedConfig (["a"] ++ ["b"]) (startWorld 0 0)).comp.builder ∧
    (stageCalls pipelinedConfig (["a"] ++ ["b"] ++ ["b"]) (startWorld 0 0)).trace =
      (stageCalls pipelinedConfig (["a"] ++ ["b"]) (startWorld 0 0)).trace := by
  have hr : pipelinedConfig.resolvesByName "b" := Or.inl ⟨1, 1, fun _ _ => rfl⟩
  have h := remembered_stage_tracks_builder pipelinedConfig ["a"] "b" (startWorld 0 0) rfl rfl
  exact ⟨hr, rfl, h.1, h.2.1 (by decide), (h.2.2 hr).1, (h.2.2 hr).2⟩

/-! ## Claims on the node-tagging overloads, the executor and `Parallel::compute` -/

/-- C5: for every node id, every set of node ids and every name, both
overloads `set_pipeline_stage(id(s), name)` return normally (no exit) in every
case, and: with pipelining disabled the builder is unchanged and no call is
made on it, whatever the table holds; with pipelining enabled and the name
found with pair (a, s), exactly the given node(s) get accelerator a and stage
s (every other tag and the active attributes stay as they were); with
pipelining enabled and the name not found, one diagnostic line is written to
the error stream, the builder is unchanged and no call is made on it.  On a
single id and on the set holding just that id the two overloads leave the same
computation. -/
theorem tag_overloads_behaviour (cfg : PopartConfig) (id : TensorId) (ids : Finset TensorId)
    (name : String) (w : World) :
    (cfg.no_pipeline = true →
      (∃ w1, set_pipeline_stage_id cfg id name w = Outcome.returned w1 ∧
        w1.comp = w.comp ∧ w1.trace = w.trace ∧ w1.cerr = w.cerr) ∧
      (∃ w2, set_pipeline_stage_ids cfg ids name w = Outcome.returned w2 ∧
        w2.comp = w.comp ∧ w2.trace = w.trace ∧ w2.cerr = w.cerr)) ∧
    (cfg.no_pipeline = false → ∀ a s : Int,
      cfg.get_pipeline_setting name (-1) (-1) = (true, a, s) →
      (∃ w1, set_pipeline_stage_id cfg id name w = Outcome.returned w1 ∧
        w1.comp.builder.nodeVirtualGraph =
          (fun t => if t = id then some a else w.comp.builder.nodeVirtualGraph t) ∧
        w1.comp.builder.nodePipelineStage =
          (fun t => if t = id then some s else w.comp.builder.nodePipelineStage t) ∧
        w1.comp.builder.virtualGraphAttribute = w.comp.builder.virtualGraphAttribute ∧
        w1.comp.builder.pipelineStageAttribute = w.comp.builder.pipelineStageAttribute ∧
        w1.trace = w.trace ++ [Call.virtualGraph id a, Call.pipelineStage id s] ∧
        w1.cerr = w.cerr) ∧
      (∃ w2, set_pipeline_stage_ids cfg ids name w = Outcome.returned w2 ∧
        w2.comp.builder.nodeVirtualGraph =
          (fun t => if t ∈ ids then some a else w.comp.builder.nodeVirtualGraph t) ∧
        w2.comp.builder.nodePipelineStage =
          (fun t => if t ∈ ids then some s else w.comp.builder.nodePipelineStage t) ∧
        w2.comp.builder.virtualGraphAttribute = w.comp.builder.virtualGraphAttribute ∧
        w2.comp.builder.pipelineStageAttribute = w.comp.builder.pipelineStageAttribute ∧
        w2.trace = w.trace ++ [Call.virtualGraphSet ids a, Call.pipelineStageSet ids s] ∧
        w2.cerr = w.cerr)) ∧
    (cfg.no_pipeline = false → (cfg.get_pipeline_setting name (-1) (-1)).1 = false →
      (∃ w1, set_pipeline_stage_id cfg id name w = Outcome.returned w1 ∧
        w1.comp = w.comp ∧ w1.trace = w.trace ∧
        w1.cerr = w.cerr ++ [" *** FATAL *** did not find a setting for node: " ++ id ++
          ", name: " ++ name ++ " when do the pipeling"]) ∧
      (∃ w2, set_pipeline_stage_ids cfg ids name w = Outcome.returned w2 ∧
        w2.comp = w.comp ∧ w2.trace = w.trace ∧
        w2.cerr = w.cerr ++ [" *** FATAL *** did not find a setting for name: " ++ name ++
          " when do the pipeling"])) ∧
    (∃ w1 w2, set_pipeline_stage_id cfg id name w = Outcome.returned w1 ∧
      set_pipeline_stage_ids cfg {id} name w = Outcome.returned w2 ∧
      w1.comp = w2.comp) := by
  have off1 : cfg.no_pipeline = true → set_pipeline_stage_id cfg id name w =
      Outcome.returned (w.putOut "PIPELINE not used for this run ") := by
    intro hp; simp [set_pipeline_stage_id, hp]
  have off2 : ∀ ids' : Finset TensorId, cfg.no_pipeline = true →
      set_pipeline_stage_ids cfg ids' name w =
      Outcome.returned (w.putOut "PIPELINE not used for this run ") := by
    intro ids' hp; simp [set_pipeline_stage_ids, hp]
  have found1 : ∀ a s : Int, cfg.no_pipeline = false →
      cfg.get_pipeline_setting name (-1) (-1) = (true, a, s) →
      set_pipeline_stage_id cfg id name w = Outcome.returned
        { w with
          comp := { w.comp with
            builder := (w.comp.builder.virtualGraph id a).pipelineStage id s },
          cout := w.cout ++
            ["Arranging the tenor with id: [" ++ id ++ "], name:[" ++ name ++ "]"],
          trace := w.trace ++ [Call.virtualGraph id a, Call.pipelineStage id s] } := by
    intro a s hp hl; simp [set_pipeline_stage_id, hp, hl, World.putOut]
  have found2 : ∀ (ids' : Finset TensorId) (a s : Int), cfg.no_pipeline = false →
      cfg.get_pipeline_setting name (-1) (-1) = (true, a, s) →
      set_pipeline_stage_ids cfg ids' name w = Outcome.returned
        { w with
          comp := { w.comp with
            builder := (w.comp.builder.virtualGraphSet ids' a).pipelineStageSet ids' s },
          cout := w.cout ++ ["Arranging the tenor with name:[" ++ name ++ "]"],
          trace := w.trace ++ [Call.virtualGraphSet ids' a, Call.pipelineStageSet ids' s] } := by
    intro ids' a s hp hl; simp [set_pipeline_stage_ids, hp, hl, World.putOut]
  have lost1 : cfg.no_pipeline = false → (cfg.get_pipeline_setting name (-1) (-1)).1 = false →
      set_pipeline_stage_id cfg id name w = Outcome.returned
        ((w.putOut ("Arranging the tenor with id: [" ++ id ++ "], name:[" ++ name ++ "]")).putErr
          (" *** FATAL *** did not find a setting for node: " ++ id ++
            ", name: " ++ name ++ " when do the pipeling")) := by
    intro hp hl; simp [set_pipeline_stage_id, hp, hl]
  have lost2 : ∀ ids' : Finset TensorId, cfg.no_pipeline = false →
      (cfg.get_pipeline_setting name (-1) (-1)).1 = false →
      set_pipeline_stage_ids cfg ids' name w = Outcome.returned
        ((w.putOut ("Arranging the tenor with name:[" ++ name ++ "]")).putErr
          (" *** FATAL *** did not find a setting for name: " ++ name ++
            " when do the pipeling")) := by
    intro ids' hp hl; simp [set_pipeline_stage_ids, hp, hl]
  refine ⟨?_, ?_, ?_, ?_⟩
  · intro hp
    exact ⟨⟨_, off1 hp, rfl, rfl, rfl⟩, ⟨_, off2 ids hp, rfl, rfl, rfl⟩⟩
  · intro hp a s hl
    exact ⟨⟨_, found1 a s hp hl, rfl, rfl, rfl, rfl, rfl, rfl⟩,
      ⟨_, found2 ids a s hp hl, rfl, rfl, rfl, rfl, rfl, rfl⟩⟩
  · intro hp hl
    exact ⟨⟨_, lost1 hp hl, rfl, rfl, rfl⟩, ⟨_, lost2 ids hp hl, rfl, rfl, rfl⟩⟩
  · cases hp : cfg.no_pipeline
    · cases hf : (cfg.get_pipeline_setting name (-1) (-1)).1
      · exact ⟨_, _, lost1 hp hf, lost2 {id} hp hf, rfl⟩
      · have hl : cfg.get_pipeline_setting name (-1) (-1) =
            (true, (cfg.get_pipeline_setting name (-1) (-1)).2.1,
              (cfg.get_pipeline_setting name (-1) (-1)).2.2) := by
          rw [← hf]
        refine ⟨_, _, found1 _ _ hp hl, found2 {id} _ _ hp hl, ?_⟩
        simp [Builder.virtualGraph, Builder.pipelineStage,
          Builder.virtualGraphSet, Builder.pipelineStageSet]
    · exact ⟨_, _, off1 hp, off2 {id} hp, rfl⟩

/-- C6: for every execution-mode value, `set_executor` returns with the
Parallel strategy installed if and only if the mode is PIPELINE or PARALLEL,
returns with the Sequence strategy installed if and only if the mode is
SEQUENCE, and for every other value ends the process through `exit(-1)` with
the computation, its executor included, left as it was. -/
theorem executor_selected_by_mode (cfg : PopartConfig) (w : World) :
    ((∃ w1, set_executor cfg w = Outcome.returned w1 ∧
        w1.comp.m_executor = some Executor.Parallel) ↔
      (cfg.execution_mode = ExecutionMode.PIPELINE ∨
        cfg.execution_mode = ExecutionMode.PARALLEL)) ∧
    ((∃ w1, set_executor cfg w = Outcome.returned w1 ∧
        w1.comp.m_executor = some Executor.Sequence) ↔
      cfg.execution_mode = ExecutionMode.SEQUENCE) ∧
    ((cfg.execution_mode ≠ ExecutionMode.PIPELINE ∧
        cfg.execution_mode ≠ ExecutionMode.PARALLEL ∧
        cfg.execution_mode ≠ ExecutionMode.SEQUENCE) ↔
      (∃ w1, set_executor cfg w = Outcome.exited (-1) w1 ∧ w1.comp = w.comp)) := by
  cases hm : cfg.execution_mode <;>
    simp [set_executor, hm, World.putOut, World.putErr]

/-- C8: for every state and every request, `Parallel::compute` returns exactly
when the wait on the request returns, that is when the completion signal of
that request fires; when it returns it has made exactly two collaborator
calls, first the put of the request on the request queue and then the wait on
that same request (so no device, session or builder call, no `init()` and no
session run), the computation (session, device, builder, options and the
rest) and the statics are as before, and its only output is its two progress
lines on the output stream. -/
theorem parallel_compute_puts_then_waits (signalled : odla_context → Bool)
    (context : odla_context) (mode : odla_compute_mode) (device : odla_device) (w : World) :
    (signalled context = true →
      ∃ w1, Parallel.compute signalled context mode device w = some w1 ∧
        w1.trace = w.trace ++ [Call.put context, Call.wait context] ∧
        w1.comp = w.comp ∧
        w1.global_ipu_number_set = w.global_ipu_number_set ∧
        w1.previous_pipeline_stage_setting = w.previous_pipeline_stage_setting ∧
        w1.cout = w.cout ++ ["---> Parallel::compute()", "<--- Parallel::compute()"] ∧
        w1.cerr = w.cerr) ∧
    (signalled context = false →
      Parallel.compute signalled context mode device w = none) := by
  constructor
  · intro h
    have hc : Parallel.compute signalled context mode device w = some
        { w with
          cout := w.cout ++ ["---> Parallel::compute()", "<--- Parallel::compute()"],
          trace := w.trace ++ [Call.put context, Call.wait context] } := by
      simp [Parallel.compute, odla_context.wait, World.record, World.putOut, h]
    exact ⟨_, hc, rfl, rfl, rfl, rfl, rfl, rfl⟩
  · intro h
    simp [Parallel.compute, odla_context.wait, h]

/-! ## Claims on `init` -/

theorem init_uninitialised (rt : PopartRuntime) (cfg : PopartConfig) (w : World)
    (hnull : w.comp.session = none)
    (hcreate : ∀ proto dataFlow device sessionOpts,
      rt.createFromOnnxModel proto dataFlow device sessionOpts ≠ none) :
    ∃ w1 session, init rt cfg w = some w1 ∧
      w1.comp.session = some session ∧
      w1.comp.opts = { use_ipu_model := false, ipu_num := cfg.ipu_num,
                       batches_per_step := cfg.batch_per_step } ∧
      w1.comp.device = rt.acquireAvailableDevice cfg.ipu_num ∧
      w1.trace = w.trace ++ initCalls rt cfg w session := by
  unfold init
  simp only [hnull, World.record, set_opts, World.putOut, Option.isNone_none, if_true]
  split
  · rename_i h
    exact absurd h (hcreate _ _ _ _)
  · rename_i session h
    refine ⟨_, session, rfl, rfl, ?_, ?_, ?_⟩
    · cases cfg.save_model <;> cases cfg.load_onnx <;> rfl
    · cases cfg.save_model <;> cases cfg.load_onnx <;> rfl
    · cases hsv : cfg.save_model <;> cases hlo : cfg.load_onnx <;>
        simp [initCalls, set_session_opts, hsv, hlo]

theorem init_initialised (rt : PopartRuntime) (cfg : PopartConfig) (w : World)
    (h : w.comp.session ≠ none) : init rt cfg w = some w := by
  cases hs : w.comp.session with
  | none => exact absurd hs h
  | some session => simp [init, hs]

theorem initTimes_initialised (rt : PopartRuntime) (cfg : PopartConfig) (w : World)
    (h : w.comp.session ≠ none) (n : Nat) : initTimes rt cfg n w = some w := by
  induction n with
  | zero => rfl
  | succ n ih => simp [initTimes, init_initialised rt cfg w h, ih]

theorem initTimes_after_first (rt : PopartRuntime) (cfg : PopartConfig) (w w1 : World)
    (hfirst : init rt cfg w = some w1) (h1 : w1.comp.session ≠ none) (k : Nat) (hk : 1 ≤ k) :
    initTimes rt cfg k w = some w1 := by
  obtain ⟨n, rfl⟩ : ∃ n, k = n + 1 := ⟨k - 1, by omega⟩
  simp [initTimes, hfirst, initTimes_initialised rt cfg w1 h1 n]

theorem initCalls_acquisitions (rt : PopartRuntime) (cfg : PopartConfig) (w : World)
    (session : InferenceSession) :
    (initCalls rt cfg w session).countP Call.isDeviceAcquisition = 1 ∧
    (initCalls rt cfg w session).countP Call.isSessionConstruction = 1 ∧
    (initCalls rt cfg w session).countP Call.isIpuModelCreation = 0 := by
  cases hsv : cfg.save_model <;>
    simp [initCalls, hsv, Call.isDeviceAcquisition, Call.isSessionConstruction,
      Call.isIpuModelCreation, List.countP_cons]

/-- C1, the claim as stated fails: the state reached by a first `init()` has a
non-null session, and two further successive calls of `init()` from that state
leave it as it is, so they perform no device acquisition and no session
construction (the trace keeps the one acquisition and the one construction of
the earlier call), not one of each. -/
theorem init_on_initialised_state_acquires_nothing :
    init workingRuntime pipelinedConfig (startWorld 0 0) = some readyWorld ∧
    readyWorld.comp.session = some { id := 7 } ∧
    initTimes workingRuntime pipelinedConfig 1 readyWorld = some readyWorld ∧
    initTimes workingRuntime pipelinedConfig 2 readyWorld = some readyWorld ∧
    (initTimes workingRuntime pipelinedConfig 2 readyWorld).map
      (fun w => w.trace.countP Call.isDeviceAcquisition) =
      some (readyWorld.trace.countP Call.isDeviceAcquisition + 0) ∧
    (initTimes workingRuntime pipelinedConfig 2 readyWorld).map
      (fun w => w.trace.countP Call.isSessionConstruction) =
      some (readyWorld.trace.countP Call.isSessionConstruction + 0) ∧
    (initTimes workingRuntime pipelinedConfig 2 readyWorld).map
      (fun w => w.trace.countP Call.isDeviceAcquisition) ≠
      some (readyWorld.trace.countP Call.isDeviceAcquisition + 1) ∧
    (initTimes workingRuntime pipelinedConfig 2 readyWorld).map
      (fun w => w.trace.countP Call.isSessionConstruction) ≠
      some (readyWorld.trace.countP Call.isSessionConstruction + 1) :=
  ⟨rfl, rfl, rfl, rfl, rfl, rfl, by decide, by decide⟩

/-- C1 as amended: for every computation state and every N >= 1, when every
session creation returns a non-null session, N successive calls of `init()`
all return, the first call leaves a non-null session, and the state after each
of the N calls is the state after the first (so each call after the first
leaves the whole state unchanged and the same session is observed).  When the
session is null at the start, the first call performs exactly one device
acquisition and exactly one session construction; when it is already
non-null, the first call too leaves the state unchanged, so no device is
acquired and no session constructed. -/
theorem init_runs_body_at_most_once (rt : PopartRuntime) (cfg : PopartConfig) (w : World)
    (N : Nat) (hN : 1 ≤ N)
    (hcreate : ∀ proto dataFlow device sessionOpts,
      rt.createFromOnnxModel proto dataFlow device sessionOpts ≠ none) :
    ∃ w1, init rt cfg w = some w1 ∧
      w1.comp.session ≠ none ∧
      initTimes rt cfg N w = some w1 ∧
      (∀ k, 1 ≤ k → k ≤ N → initTimes rt cfg k w = some w1) ∧
      (w.comp.session = none →
        w1.trace.countP Call.isDeviceAcquisition =
          w.trace.countP Call.isDeviceAcquisition + 1 ∧
        w1.trace.countP Call.isSessionConstruction =
          w.trace.countP Call.isSessionConstruction + 1) ∧
      (w.comp.session ≠ none → w1 = w) := by
  by_cases hnull : w.comp.session = none
  · obtain ⟨w1, session, hfirst, hs, -, -, ht⟩ := init_uninitialised rt cfg w hnull hcreate
    have h1 : w1.comp.session ≠ none := by rw [hs]; simp
    obtain ⟨ca, cs, -⟩ := initCalls_acquisitions rt cfg w session
    refine ⟨w1, hfirst, h1, initTimes_after_first rt cfg w w1 hfirst h1 N hN,
      fun k hk _ => initTimes_after_first rt cfg w w1 hfirst h1 k hk,
      fun _ => ?_, fun h => absurd hnull h⟩
    rw [ht, List.countP_append, List.countP_append, ca, cs]
    exact ⟨rfl, rfl⟩
  · have hfirst := init_initialised rt cfg w hnull
    exact ⟨w, hfirst, hnull, initTimes_after_first rt cfg w w hfirst hnull N hN,
      fun k hk _ => initTimes_after_first rt cfg w w hfirst hnull k hk,
      fun h => absurd h hnull, fun _ => rfl⟩

/-- Witness of the amended C1: three successive calls from the state at
process start, with the runtime in which every request succeeds. -/
theorem init_runs_body_at_most_once_witness :
    (1 ≤ 3) ∧
    (∀ proto dataFlow device sessionOpts,
      workingRuntime.createFromOnnxModel proto dataFlow device sessionOpts ≠ none) ∧
    ∃ w1, init workingRuntime pipelinedConfig (startWorld 0 0) = some w1 ∧
      w1.comp.session ≠ none ∧
      initTimes workingRuntime pipelinedConfig 3 (startWorld 0 0) = some w1 ∧
      (∀ k, 1 ≤ k → k ≤ 3 → initTimes workingRuntime pipelinedConfig k (startWorld 0 0) = some w1) ∧
      ((startWorld 0 0).comp.session = none →
        w1.trace.countP Call.isDeviceAcquisition =
          (startWorld 0 0).trace.countP Call.isDeviceAcquisition + 1 ∧
        w1.trace.countP Call.isSessionConstruction =
          (startWorld 0 0).trace.countP Call.isSessionConstruction + 1) ∧
      ((startWorld 0 0).comp.session ≠ none → w1 = startWorld 0 0) :=
  ⟨by decide, fun _ _ _ _ => by simp [workingRuntime],
    init_runs_body_at_most_once workingRuntime pipelinedConfig (startWorld 0 0) 3 (by decide)
      (fun _ _ _ _ => by simp [workingRuntime])⟩

/-- C9, the claim as stated fails: from the uninitialised state in which the
option `use_ipu_model` is true when `init()` is called, `init()` creates no
simulated device; its one device acquisition is the request for a real device
with the 2 accelerators of the config, the device it stores is the one that
request returned, and the option is false afterwards. -/
theorem init_ignores_simulated_option :
    simulatedWorld.comp.opts.use_ipu_model = true ∧
    simulatedWorld.comp.session = none ∧
    (init workingRuntime pipelinedConfig simulatedWorld).map
      (fun w => w.trace.countP Call.isIpuModelCreation) = some 0 ∧
    (init workingRuntime pipelinedConfig simulatedWorld).map
      (fun w => w.trace.filter Call.isDeviceAcquisition) =
      some [Call.acquireAvailableDevice 2] ∧
    (init workingRuntime pipelinedConfig simulatedWorld).map (fun w => w.comp.device) =
      some (workingRuntime.acquireAvailableDevice 2) ∧
    (init workingRuntime pipelinedConfig simulatedWorld).map
      (fun w => w.comp.opts.use_ipu_model) = some false :=
  ⟨rfl, rfl, rfl, rfl, rfl, rfl⟩

/-- C9 as amended: for every uninitialised computation, whatever the option
`use_ipu_model` holds when `init()` is called, and when every session creation
returns a non-null session: `init()` first applies `set_opts`, which sets
`use_ipu_model` to false and takes `ipu_num` and `batches_per_step` from the
config; it then acquires a real device with `ipu_num` accelerators, stores the
device that request returned, builds the data flow with that
`batches_per_step`, and creates no simulated device. -/
theorem init_acquires_real_device (rt : PopartRuntime) (cfg : PopartConfig) (w : World)
    (hnull : w.comp.session = none)
    (hcreate : ∀ proto dataFlow device sessionOpts,
      rt.createFromOnnxModel proto dataFlow device sessionOpts ≠ none) :
    ∃ w1 session, init rt cfg w = some w1 ∧
      w1.comp.session = some session ∧
      w1.comp.opts = { use_ipu_model := false, ipu_num := cfg.ipu_num,
                       batches_per_step := cfg.batch_per_step } ∧
      w1.comp.device = rt.acquireAvailableDevice cfg.ipu_num ∧
      w1.trace = w.trace ++
        ([Call.lock "m_init_mutex", Call.acquireAvailableDevice cfg.ipu_num] ++
         (if cfg.save_model then [Call.saveModelProto cfg.save_model_path] else []) ++
         [Call.createFromOnnxModel
            (if cfg.load_onnx then cfg.load_onnx_path else w.comp.builder.modelProto)
            { batchesPerStep := cfg.batch_per_step
              anchors := w.comp.outputs_map.map (fun output => output.2.tensor_id)
              anchorReturnType := "All" }
            (rt.acquireAvailableDevice cfg.ipu_num)
            (set_session_opts cfg w).comp.m_session_opts,
          Call.prepareDevice session,
          Call.setRandomSeed session 0,
          Call.weightsFromHost session,
          Call.unlock "m_init_mutex"]) ∧
      w1.trace.countP Call.isIpuModelCreation = w.trace.countP Call.isIpuModelCreation := by
  obtain ⟨w1, session, hfirst, hs, ho, hd, ht⟩ := init_uninitialised rt cfg w hnull hcreate
  refine ⟨w1, session, hfirst, hs, ho, hd, ht, ?_⟩
  rw [ht, List.countP_append, (initCalls_acquisitions rt cfg w session).2.2]
  rfl

/-- Witness of the amended C9 on the state in which the option `use_ipu_model`
is true. -/
theorem init_acquires_real_device_witness :
    ∃ w1 session, init workingRuntime pipelinedConfig simulatedWorld = some w1 ∧
      w1.comp.session = some session ∧
      w1.comp.opts = { use_ipu_model := false, ipu_num := 2, batches_per_step := 1 } ∧
      w1.comp.device = some { id := 1 } ∧
      w1.trace.countP Call.isIpuModelCreation = 0 := by
  obtain ⟨w1, session, h1, h2, h3, h4, -, h6⟩ :=
    init_acquires_real_device workingRuntime pipelinedConfig simulatedWorld rfl
      (fun _ _ _ _ => by simp [workingRuntime])
  exact ⟨w1, session, h1, h2, h3, h4, h6⟩

end OdlaPopart
